import Mathlib

/-!
Shallow embedding of the gpt-commit tool (package `gpt_commit`, files
`__init__.py` and `gpt_commit.py`).

The repository ships two parallel implementations of the same workflow:

* `__init__.py` defines a module-level CLI (`gpt_commit`) that loads
  credentials from a secrets file, lists models, validates the `--model`
  argument, classifies the target file as newly added / modified /
  unchanged, generates a commit message with one of two prompt templates,
  writes it to `commit_msg.txt`, opens the editor, compares modification
  times, and commits via `stage_and_commit`, finally unlinking the file.

* `gpt_commit.py` defines `GitCommitHelper` with its own CLI; its
  `get_diff` falls back from the working-tree diff to the diff against
  HEAD, `commit_file_with_ai` supports `--dry-run` and an edit step with
  an emptiness check, and `stage_and_commit` catches commit errors.

Both are embedded below as pure functions from an environment (capturing
every external observation the Python code makes: git state, API
responses, editor behaviour) to a trace of externally visible events plus
an exit outcome.  All strings match the Python sources byte for byte.
-/

deriving instance DecidableEq for Except

namespace GptCommit

/-- The whitespace characters stripped by Python str.strip (ASCII range;
the Unicode space classes play no role in this development). -/
def isPyWhitespace (c : Char) : Bool :=
  c = ' ' || c = '\t' || c = '\n' || c = '\r' || c = '\x0b' || c = '\x0c'

/-- Python str.strip: remove leading and trailing whitespace. -/
def pyStrip (s : String) : String :=
  String.mk (((s.data.dropWhile isPyWhitespace).reverse.dropWhile isPyWhitespace).reverse)

/-- A chat message as passed to the completions API. -/
structure ChatMessage where
  role : String
  content : String
deriving DecidableEq

/-- The request handed to client.chat.completions.create. -/
structure ChatRequest where
  model : String
  messages : List ChatMessage
  temperature : Rat
deriving DecidableEq

/-- Externally visible actions of a run, in order. -/
inductive Event where
  | listModelsCall
  | chatCompletionCall (req : ChatRequest)
  | printMsg (s : String)
  | msgFileCreate (content : String)
  | editorInvoke
  | stageFile (f : String)
  | commitIndex (msg : String)
  | msgFileRemove
deriving DecidableEq

/-- How the process ends: a normal exit with a code, or an exception that
no handler catches (the Python interpreter then exits with code 1). -/
inductive ExitKind where
  | normal (code : Nat)
  | uncaught (exn : String)
deriving DecidableEq

/-- The numeric process exit code an ExitKind produces. -/
def exitCodeOf : ExitKind → Nat
  | .normal n => n
  | .uncaught _ => 1

/-- True exactly on chat-completion events. -/
def Event.isCompletionCall : Event → Bool
  | .chatCompletionCall _ => true
  | _ => false

/-- True exactly on staging events. -/
def Event.isStage : Event → Bool
  | .stageFile _ => true
  | _ => false

/-- True exactly on commit events. -/
def Event.isCommit : Event → Bool
  | .commitIndex _ => true
  | _ => false

/-- A trace touches the repository iff it stages or commits. -/
def Event.isRepoWrite : Event → Bool
  | .stageFile _ => true
  | .commitIndex _ => true
  | _ => false

namespace Helper

/-- How the staging/commit step of GitCommitHelper turns out: no
exception; an exception of one of the two caught classes, OSError or
ValueError; or an exception of any other class, such as the
GitCommandError that repo.git.add raises, which the except clause does
not match and which therefore propagates. -/
inductive CommitFailure where
  | ok
  | caught (msg : String)
  | uncaught (exn : String)
deriving DecidableEq

/-- Everything the GitCommitHelper code observes from outside: git state,
API responses, the editor result.  diffWT models repo.git.diff(filename)
(working tree vs index), diffHEAD models repo.git.diff('HEAD', filename).
fileContent is the working-tree content of the target file; the helper
code never reads it, it is carried to state claims about it. -/
structure Env where
  configOk : Bool
  modelsApiError : Bool
  modelsErr : String
  models : List String
  tracked : List String
  diffWT : String
  diffHEAD : String
  fileContent : String
  apiError : Bool
  apiErrMsg : String
  choices : List String
  editedContent : String
  commitFailure : CommitFailure

/-- GitCommitHelper.get_models: returns model ids, or an empty list with a
diagnostic on an API error. -/
def get_models (env : Env) : List Event × List String :=
  if env.modelsApiError then
    ([Event.listModelsCall, Event.printMsg ("Error fetching models: " ++ env.modelsErr)], [])
  else
    ([Event.listModelsCall], env.models)

/-- The single prompt template of GitCommitHelper.generate_commit_message.
The Python source uses a backslash line continuation inside the f-string,
so the literal contains the 25 spaces of the following line's indentation. -/
def helperPrompt (diff_msg : String) : String :=
  "Please write a brief commit message " ++
    "                         for the following diff:\n" ++ diff_msg

/-- The request GitCommitHelper.generate_commit_message builds: one
user-role message with the diff embedded, temperature 0.0. -/
def completionRequest (diff_msg model : String) : ChatRequest :=
  { model := model
    messages := [{ role := "user", content := helperPrompt diff_msg }]
    temperature := 0 }

/-- GitCommitHelper.generate_commit_message: issues the completion call;
on an API error prints a diagnostic and yields none; otherwise yields the
stripped first choice, or none when there are no choices. -/
def generate_commit_message (env : Env) (diff_msg model : String) :
    List Event × Option String :=
  if env.apiError then
    ([Event.chatCompletionCall (completionRequest diff_msg model),
      Event.printMsg ("Error generating commit message: " ++ env.apiErrMsg)], none)
  else
    ([Event.chatCompletionCall (completionRequest diff_msg model)],
      env.choices.head?.map pyStrip)

/-- GitCommitHelper.get_diff: error for untracked files; otherwise the
working-tree diff, falling back (Python `or`) to the diff against HEAD
when the former is empty. -/
def get_diff (env : Env) (filename : String) : Except String String :=
  if filename ∈ env.tracked then
    Except.ok (if env.diffWT = "" then env.diffHEAD else env.diffWT)
  else
    Except.error ("'" ++ filename ++ "' is not tracked by git.")

/-- GitCommitHelper.stage_and_commit: stages and commits.  Only OSError
and ValueError are caught and printed; any other exception escapes to the
caller, returned here as the second component. -/
def stage_and_commit (env : Env) (filename commit_message : String) :
    List Event × Option String :=
  match env.commitFailure with
  | CommitFailure.ok =>
    ([Event.stageFile filename, Event.commitIndex commit_message,
      Event.printMsg ("Committed '" ++ filename ++ "' with message: " ++ commit_message)],
     none)
  | CommitFailure.caught msg =>
    ([Event.printMsg ("Error during commit: " ++ msg)], none)
  | CommitFailure.uncaught exn => ([], some exn)

/-- Exit outcome after the staging step: a normal exit 0 unless an
exception escaped stage_and_commit, in which case nothing above catches
it and the process dies with it. -/
def commitExit (sc : List Event × Option String) : ExitKind :=
  match sc.2 with
  | none => ExitKind.normal 0
  | some exn => ExitKind.uncaught exn

/-- GitCommitHelper.commit_file_with_ai: the main workflow.  The
FileNotFoundError raised by get_diff is caught nowhere, so it surfaces as
an uncaught exception.  The temporary file created for editing is never
removed on any path. -/
def commit_file_with_ai (env : Env) (filename model : String)
    (edit dry_run : Bool) : List Event × ExitKind :=
  match get_diff env filename with
  | Except.error e => ([], ExitKind.uncaught ("FileNotFoundError: " ++ e))
  | Except.ok diff_msg =>
    if diff_msg = "" then
      ([Event.printMsg ("No changes detected for '" ++ filename ++ "'.")], ExitKind.normal 0)
    else
      let gen := generate_commit_message env diff_msg model
      match gen.2 with
      | none =>
        (gen.1 ++ [Event.printMsg ("Failed to generate commit message.")], ExitKind.normal 0)
      | some commit_msg =>
        if commit_msg = "" then
          (gen.1 ++ [Event.printMsg ("Failed to generate commit message.")], ExitKind.normal 0)
        else
          let evs := gen.1 ++ [Event.printMsg ("Generated commit message:\n" ++ commit_msg)]
          if dry_run then
            (evs, ExitKind.normal 0)
          else if edit then
            let evs := evs ++ [Event.msgFileCreate commit_msg, Event.editorInvoke]
            let edited := pyStrip env.editedContent
            if edited = "" then
              (evs ++ [Event.printMsg ("Commit message empty after editing. Aborting.")],
               ExitKind.normal 0)
            else
              (evs ++ (stage_and_commit env filename edited).1,
               commitExit (stage_and_commit env filename edited))
          else
            (evs ++ (stage_and_commit env filename commit_msg).1,
             commitExit (stage_and_commit env filename commit_msg))

/-- The click command gpt_commit of gpt_commit.py.  Constructing
GitCommitHelper raises RuntimeError when credentials are missing; nothing
catches it.  With --list-models the models are printed and the command
returns; otherwise commit_file_with_ai runs.  Note that the model list is
never consulted to validate the model argument. -/
def gpt_commit (env : Env) (filename model : String)
    (list_models dry_run no_edit : Bool) : List Event × ExitKind :=
  if env.configOk then
    if list_models then
      let ms := get_models env
      (ms.1 ++ ms.2.map (fun m => Event.printMsg ("- " ++ m)), ExitKind.normal 0)
    else
      commit_file_with_ai env filename model (!no_edit) dry_run
  else
    ([], ExitKind.uncaught ("RuntimeError: Missing API credentials for OpenAI/CBORG."))

end Helper

namespace Init

/-- Everything the module-level CLI of this package observes from outside.
newFiles and modifiedFiles model the lists built from
repo.head.commit.diff(None) (b_path of new-file entries, a_path of the
others); untracked models repo.untracked_files; gitDiff models
repo.git.diff(filename); fileContent is what open(filename).read()
returns; editorChanged is whether the file's st_mtime differs after
click.edit returns. -/
structure Env where
  secretsOk : Bool
  secretsPath : String
  modelsApiError : Bool
  modelsErr : String
  models : List String
  isFile : Bool
  bare : Bool
  untracked : List String
  newFiles : List String
  modifiedFiles : List String
  fileContent : String
  gitDiff : String
  choices : List String
  editorChanged : Bool
  editedContent : String
  commitFails : Bool
  commitErr : String

/-- get_models of the module CLI: model ids, or an empty list plus a
diagnostic on any exception. -/
def get_models (env : Env) : List Event × List String :=
  if env.modelsApiError then
    ([Event.listModelsCall, Event.printMsg ("Error fetching models: " ++ env.modelsErr)], [])
  else
    ([Event.listModelsCall], env.models)

/-- The new-file prompt template of generate_commit_message. -/
def newFilePrompt (diff_msg : String) : String :=
  "Please write a concise commit message that summarizes the newly added file with code:\n"
    ++ diff_msg

/-- The modified-file prompt template of generate_commit_message. -/
def modifiedPrompt (diff_msg : String) : String :=
  "Please write a brief commit message for the following diff:\n" ++ diff_msg

/-- The request generate_commit_message builds: a single user-role message
whose content is one of two templates (selected by new_file_flag) with the
diff appended, at temperature 0.0. -/
def completionRequest (diff_msg model : String) (new_file_flag : Bool) : ChatRequest :=
  { model := model
    messages := [{ role := "user",
                   content := if new_file_flag then newFilePrompt diff_msg
                              else modifiedPrompt diff_msg }]
    temperature := 0 }

/-- stage_and_commit of the module CLI: re-reads the message file, strips
it, stages and commits; any exception is caught and printed.  No
emptiness check is performed on the stripped message. -/
def stage_and_commit (env : Env) (filename : String) : List Event :=
  if env.commitFails then
    [Event.printMsg ("Error during staging or committing: " ++ env.commitErr)]
  else
    [Event.stageFile filename, Event.commitIndex (pyStrip env.editedContent)]

/-- The tail of the module CLI after the diff text and new-file flag are
determined: the completion call (generate_commit_message has no exception
handler; a response without choices makes it return None, and then
open(.., "w") creates an empty commit_msg.txt before f.write(None) raises
TypeError), then the commit_msg.txt write, the editor, the mtime
comparison, and the unlink that both editor branches reach. -/
def afterDiff (env : Env) (f model diff_msg : String) (flag : Bool)
    (evs : List Event) : List Event × ExitKind :=
  let evs := evs ++ [Event.chatCompletionCall (completionRequest diff_msg model flag)]
  match env.choices.head?.map pyStrip with
  | none => (evs ++ [Event.msgFileCreate ("")], ExitKind.uncaught ("TypeError"))
  | some commit_msg =>
    let evs := evs ++ [Event.msgFileCreate commit_msg, Event.editorInvoke]
    if env.editorChanged then
      (evs ++ stage_and_commit env f ++ [Event.msgFileRemove], ExitKind.normal 0)
    else
      (evs ++ [Event.printMsg ("No changes made to the commit message. Exiting."),
               Event.msgFileRemove], ExitKind.normal 0)

/-- The click command gpt_commit of the package module: credentials (fatal
exit 1 when the secrets file is missing), model listing, --list-models
early exit, model validation, filename validation, bare-repo warning
(printed but not fatal), untracked check, classification into newly added
(diff text is the file's full content) / modified (diff text is the git
patch) / unchanged (informational message, sys.exit(0)). -/
def gpt_commit (env : Env) (filename : Option String) (model : String)
    (list_models : Bool) : List Event × ExitKind :=
  if env.secretsOk then
    let ms := get_models env
    if list_models then
      (ms.1 ++ ms.2.map (fun m => Event.printMsg ("- " ++ m)), ExitKind.normal 0)
    else if model ∈ ms.2 then
      match filename with
      | none => (ms.1 ++ [Event.printMsg ("Please provide a valid filename.")], ExitKind.normal 0)
      | some f =>
        if env.isFile then
          let evs := ms.1 ++
            (if env.bare then [Event.printMsg ("This is not a git repository")] else [])
          if f ∈ env.untracked then
            (evs ++ [Event.printMsg ("file '" ++ f ++ "' is not tracked by git.")],
             ExitKind.normal 0)
          else if f ∈ env.newFiles then
            afterDiff env f model env.fileContent true evs
          else if f ∈ env.modifiedFiles then
            afterDiff env f model env.gitDiff false evs
          else
            (evs ++ [Event.printMsg (f ++ " has not been modified.")], ExitKind.normal 0)
        else
          (ms.1 ++ [Event.printMsg ("Please provide a valid filename.")], ExitKind.normal 0)
    else
      (ms.1 ++ [Event.printMsg ("Model '" ++ model ++
          "' is not available. Please choose from the following models:")] ++
        ms.2.map (fun m => Event.printMsg ("- " ++ m)), ExitKind.normal 0)
  else
    ([Event.printMsg ("error: can't load API key from " ++ env.secretsPath)],
     ExitKind.normal 1)

end Init

/-- Events that touch neither the completion API nor the repository nor
the message file: the model-list call and console prints. -/
def benignEvent : Event → Bool
  | .listModelsCall => true
  | .printMsg _ => true
  | _ => false

/-- Events that may occur before any staging or committing: console
output, the model-list call, and the completion call itself. -/
def preCommitEvent : Event → Bool
  | .listModelsCall => true
  | .printMsg _ => true
  | .chatCompletionCall _ => true
  | _ => false

/-- A baseline helper environment: credentials present, one model, one
tracked file, a one-choice API response, no failures. -/
def baseHEnv : Helper.Env :=
  { configOk := true, modelsApiError := false, modelsErr := "",
    models := ["openai/gpt-4.1"], tracked := ["foo.py"],
    diffWT := "", diffHEAD := "", fileContent := "",
    apiError := false, apiErrMsg := "",
    choices := ["Update foo.py"], editedContent := "Update foo.py",
    commitFailure := Helper.CommitFailure.ok }

/-- A baseline module-CLI environment: secrets file present, one model,
valid file, nothing classified yet, no failures. -/
def baseIEnv : Init.Env :=
  { secretsOk := true, secretsPath := "/home/user/.config/cborg/secrets.json",
    modelsApiError := false, modelsErr := "",
    models := ["openai/gpt-4.1"], isFile := true, bare := false,
    untracked := [], newFiles := [], modifiedFiles := [],
    fileContent := "", gitDiff := "",
    choices := ["Update foo.py"], editorChanged := true,
    editedContent := "Reword the update", commitFails := false, commitErr := "" }

/-- Repository state with foo.py newly added and fully staged: tracked in
the index, working tree identical to the index (empty working-tree diff),
and the diff against HEAD the textual creation patch. -/
def envNewStaged : Helper.Env :=
  { baseHEnv with
    diffHEAD := "diff --git a/foo.py b/foo.py\nnew file mode 100644\n--- /dev/null\n+++ b/foo.py\n@@ -0,0 +1 @@\n+print(1)\n",
    fileContent := "print(1)\n" }

/-- Helper state with a modified tracked file and a model name that the
lister would not return; the server then rejects the completion call. -/
def envBadModel : Helper.Env :=
  { baseHEnv with
    diffWT := "--- a/foo.py\n+++ b/foo.py\n@@ -1 +1 @@\n-print(1)\n+print(2)\n",
    apiError := true, apiErrMsg := "model not found" }

/-- Helper state where the editor saves the file with content identical
to the generated message. -/
def envUnchangedEdit : Helper.Env :=
  { baseHEnv with
    diffWT := "--- a/foo.py\n+++ b/foo.py\n@@ -1 +1 @@\n-print(1)\n+print(2)\n",
    choices := ["Fix the build"], editedContent := "Fix the build" }

/-- Module-CLI state where the editor rewrote the message file (mtime
changed) but left only whitespace in it. -/
def envEmptyEdit : Init.Env :=
  { baseIEnv with
    modifiedFiles := ["foo.py"],
    gitDiff := "--- a/foo.py\n+++ b/foo.py\n@@ -1 +1 @@\n-print(1)\n+print(2)\n",
    editorChanged := true, editedContent := "  \n" }

/-- Helper state with a modified tracked file where staging or committing
raises an OSError, one of the two exception classes the except clause
catches. -/
def envCommitFail : Helper.Env :=
  { baseHEnv with
    diffWT := "--- a/foo.py\n+++ b/foo.py\n@@ -1 +1 @@\n-print(1)\n+print(2)\n",
    commitFailure := Helper.CommitFailure.caught ("disk full") }

/-- No chat-completion call occurs in the trace. -/
def noCompletionCalls (evs : List Event) : Bool :=
  evs.all (fun e => !e.isCompletionCall)

/-- Neither staging nor committing occurs in the trace. -/
def noRepoWrites (evs : List Event) : Bool :=
  evs.all (fun e => !e.isRepoWrite)

/-- No commit object is created in the trace. -/
def noCommits (evs : List Event) : Bool :=
  evs.all (fun e => !e.isCommit)

/-- Module-CLI state with foo.py newly added (a new-file entry of the
HEAD-to-working-tree diff). -/
def envInitNew : Init.Env :=
  { baseIEnv with newFiles := ["foo.py"], fileContent := "print(1)\n" }

/-- Module-CLI state with foo.py modified. -/
def envInitMod : Init.Env :=
  { baseIEnv with
    modifiedFiles := ["foo.py"],
    gitDiff := "--- a/foo.py\n+++ b/foo.py\n@@ -1 +1 @@\n-print(1)\n+print(2)\n" }

/-- Module-CLI state where the editor exits without touching the message
file (modification time unchanged). -/
def envInitCancel : Init.Env :=
  { envInitMod with editorChanged := false }

/-- Module-CLI state with an untracked target file. -/
def envInitUntracked : Init.Env :=
  { baseIEnv with untracked := ["bar.py"] }

/-- Module-CLI state with no readable secrets file. -/
def envInitNoSecrets : Init.Env :=
  { baseIEnv with secretsOk := false }

/-- Helper state with missing credentials. -/
def envHelperNoCfg : Helper.Env :=
  { baseHEnv with configOk := false }

/-- Helper state with a modified tracked file and a well-behaved API. -/
def envHelperMod : Helper.Env :=
  { baseHEnv with
    diffWT := "--- a/foo.py\n+++ b/foo.py\n@@ -1 +1 @@\n-print(1)\n+print(2)\n" }

/-- Helper state where the editor leaves only whitespace in the file. -/
def envHelperEmptyEdit : Helper.Env :=
  { envHelperMod with editedContent := " \n " }

/-- Helper state where repo.git.add raises a GitCommandError, which the
except (OSError, ValueError) clause does not match. -/
def envCommitCrash : Helper.Env :=
  { envHelperMod with
    commitFailure := Helper.CommitFailure.uncaught ("GitCommandError") }

/-- Module-CLI state where staging or committing raises; the bare except
Exception clause catches it. -/
def envInitCommitFail : Init.Env :=
  { envInitMod with commitFails := true, commitErr := "disk full" }

/-!  Shared lemmas about the two embedded runs.  -/

theorem benignEvent_spec {e : Event} (h : benignEvent e = true) :
    e.isCompletionCall = false ∧ e.isRepoWrite = false ∧ e.isStage = false ∧
      e.isCommit = false ∧ e ≠ Event.msgFileRemove ∧ (∀ c, e ≠ Event.msgFileCreate c) ∧
      e ≠ Event.editorInvoke := by
  cases e <;> simp_all [benignEvent, Event.isCompletionCall, Event.isRepoWrite,
    Event.isStage, Event.isCommit]

theorem preCommitEvent_spec {e : Event} (h : preCommitEvent e = true) :
    e.isRepoWrite = false ∧ (∀ c, e ≠ Event.msgFileCreate c) ∧
      e ≠ Event.editorInvoke := by
  cases e <;> simp_all [preCommitEvent, Event.isRepoWrite]

theorem benign_preCommit {e : Event} (h : benignEvent e = true) :
    preCommitEvent e = true := by
  cases e <;> simp_all [benignEvent, preCommitEvent]

theorem get_models_benign (env : Init.Env) :
    ∀ e ∈ (Init.get_models env).1, benignEvent e = true := by
  intro e he
  unfold Init.get_models at he
  cases h : env.modelsApiError
  · simp [h] at he
    subst he
    rfl
  · simp [h] at he
    rcases he with rfl | rfl <;> rfl

theorem helper_get_models_benign (env : Helper.Env) :
    ∀ e ∈ (Helper.get_models env).1, benignEvent e = true := by
  intro e he
  unfold Helper.get_models at he
  cases h : env.modelsApiError
  · simp [h] at he
    subst he
    rfl
  · simp [h] at he
    rcases he with rfl | rfl <;> rfl

theorem modelPrints_benign (ms : List String) :
    ∀ e ∈ ms.map (fun m => Event.printMsg ("- " ++ m)), benignEvent e = true := by
  intro e he
  simp only [List.mem_map] at he
  obtain ⟨m, _, rfl⟩ := he
  rfl

theorem Init.preEvents_benign (env : Init.Env) :
    ∀ e ∈ (Init.get_models env).1 ++
        (if env.bare then [Event.printMsg ("This is not a git repository")] else []),
      benignEvent e = true := by
  intro e he
  rcases List.mem_append.mp he with h | h
  · exact get_models_benign env e h
  · cases hb : env.bare
    · simp [hb] at h
    · simp [hb] at h
      subst h
      rfl

theorem Init.run_classified (env : Init.Env) (f model : String)
    (hs : env.secretsOk = true) (hm : model ∈ (Init.get_models env).2)
    (hf : env.isFile = true) (hu : f ∉ env.untracked) :
    Init.gpt_commit env (some f) model false =
      (if f ∈ env.newFiles then
        Init.afterDiff env f model env.fileContent true
          ((Init.get_models env).1 ++
            (if env.bare then [Event.printMsg ("This is not a git repository")] else []))
      else if f ∈ env.modifiedFiles then
        Init.afterDiff env f model env.gitDiff false
          ((Init.get_models env).1 ++
            (if env.bare then [Event.printMsg ("This is not a git repository")] else []))
      else
        ((Init.get_models env).1 ++
            (if env.bare then [Event.printMsg ("This is not a git repository")] else []) ++
          [Event.printMsg (f ++ " has not been modified.")], ExitKind.normal 0)) := by
  unfold Init.gpt_commit
  simp [hs, hm, hf, hu]

theorem Init.afterDiff_eq (env : Init.Env) (f model d : String) (flag : Bool)
    (evs : List Event) (c : String) (hc : env.choices.head? = some c) :
    Init.afterDiff env f model d flag evs =
      (if env.editorChanged then
        (evs ++ [Event.chatCompletionCall (Init.completionRequest d model flag),
                 Event.msgFileCreate (pyStrip c), Event.editorInvoke] ++
          Init.stage_and_commit env f ++ [Event.msgFileRemove], ExitKind.normal 0)
      else
        (evs ++ [Event.chatCompletionCall (Init.completionRequest d model flag),
                 Event.msgFileCreate (pyStrip c), Event.editorInvoke,
                 Event.printMsg ("No changes made to the commit message. Exiting."),
                 Event.msgFileRemove], ExitKind.normal 0)) := by
  unfold Init.afterDiff
  rw [hc]
  cases h : env.editorChanged <;> simp [h]

theorem Helper.gen_head (env : Helper.Env) (d model : String) :
    Event.chatCompletionCall (Helper.completionRequest d model)
      ∈ (Helper.generate_commit_message env d model).1 := by
  unfold Helper.generate_commit_message
  cases h : env.apiError <;> simp [h]

theorem Helper.gen_preCommit (env : Helper.Env) (d model : String) :
    ∀ e ∈ (Helper.generate_commit_message env d model).1, preCommitEvent e = true := by
  intro e he
  unfold Helper.generate_commit_message at he
  cases h : env.apiError
  · simp [h] at he
    subst he
    rfl
  · simp [h] at he
    rcases he with rfl | rfl <;> rfl

theorem Helper.run_starts_gen (env : Helper.Env) (f model : String) (edit dry : Bool)
    (d : String) (hd : Helper.get_diff env f = Except.ok d) (hne : d ≠ "") :
    ∃ rest, (Helper.commit_file_with_ai env f model edit dry).1 =
      (Helper.generate_commit_message env d model).1 ++ rest := by
  unfold Helper.commit_file_with_ai
  rw [hd]
  simp only [hne, if_false]
  cases hg : (Helper.generate_commit_message env d model).2 with
  | none => exact ⟨_, rfl⟩
  | some m =>
    by_cases hm : m = ""
    · simp [hm]
    · simp only [hm, if_false]
      by_cases hdry : dry = true
      · simp [hdry]
      · simp only [Bool.not_eq_true] at hdry
        simp only [hdry]
        by_cases hedit : edit = true
        · simp [hedit]
          by_cases hemp : pyStrip env.editedContent = "" <;> simp [hemp]
        · simp only [Bool.not_eq_true] at hedit
          simp [hedit]

theorem Helper.cfw_eq (env : Helper.Env) (f model : String) (edit dry : Bool)
    (d c : String) (hd : Helper.get_diff env f = Except.ok d) (hne : d ≠ "")
    (hapi : env.apiError = false) (hch : env.choices.head? = some c)
    (hcs : pyStrip c ≠ "") :
    Helper.commit_file_with_ai env f model edit dry =
      (if dry then
        ([Event.chatCompletionCall (Helper.completionRequest d model),
          Event.printMsg ("Generated commit message:\n" ++ pyStrip c)], ExitKind.normal 0)
      else if edit then
        if pyStrip env.editedContent = "" then
          ([Event.chatCompletionCall (Helper.completionRequest d model),
            Event.printMsg ("Generated commit message:\n" ++ pyStrip c),
            Event.msgFileCreate (pyStrip c), Event.editorInvoke,
            Event.printMsg ("Commit message empty after editing. Aborting.")],
           ExitKind.normal 0)
        else
          ([Event.chatCompletionCall (Helper.completionRequest d model),
            Event.printMsg ("Generated commit message:\n" ++ pyStrip c),
            Event.msgFileCreate (pyStrip c), Event.editorInvoke] ++
            (Helper.stage_and_commit env f (pyStrip env.editedContent)).1,
           Helper.commitExit (Helper.stage_and_commit env f (pyStrip env.editedContent)))
      else
        ([Event.chatCompletionCall (Helper.completionRequest d model),
          Event.printMsg ("Generated commit message:\n" ++ pyStrip c)] ++
          (Helper.stage_and_commit env f (pyStrip c)).1,
         Helper.commitExit (Helper.stage_and_commit env f (pyStrip c)))) := by
  unfold Helper.commit_file_with_ai Helper.generate_commit_message
  rw [hd]
  simp only [hne, if_false, hapi, Bool.false_eq_true, hch, Option.map_some]
  simp [hcs]

theorem all_not_of_forall {p : Event → Bool} {evs : List Event}
    (h : ∀ e ∈ evs, p e = false) : evs.all (fun e => !p e) = true :=
  List.all_eq_true.mpr fun e he => by simp [h e he]

theorem Init.invalid_model_events (env : Init.Env) (fn : Option String)
    (model : String) (lm : Bool) (hm : model ∉ (Init.get_models env).2) :
    ∀ e ∈ (Init.gpt_commit env fn model lm).1, benignEvent e = true := by
  intro e he
  unfold Init.gpt_commit at he
  cases hs : env.secretsOk
  · simp [hs] at he
    subst he
    rfl
  · cases lm
    · simp only [hs, if_true, ite_true, Bool.false_eq_true, if_false] at he
      rw [if_neg hm] at he
      simp only [List.append_assoc, List.mem_append, List.mem_singleton,
        List.mem_map] at he
      rcases he with he | he | ⟨m, _, rfl⟩
      · exact get_models_benign env e he
      · subst he
        rfl
      · rfl
    · simp only [hs, ite_true] at he
      simp only [List.mem_append, List.mem_map] at he
      rcases he with he | ⟨m, _, rfl⟩
      · exact get_models_benign env e he
      · rfl

/-!  Claim theorems.  -/

/-- C1 (amended): in the module CLI, a newly added file makes the
generator receive the file's entire working-tree content (wrapped in the
new-file prompt) and a modified file makes it receive the git patch for
that path; in the GitCommitHelper workflow, a tracked file with a
non-empty working-tree diff passes that patch, and a tracked file whose
working-tree diff is empty (for example a fully staged new file) passes
the textual patch against HEAD, not the file content. -/
theorem C1_diff_text_by_variant :
    (∀ (env : Init.Env) (f model : String),
      env.secretsOk = true → model ∈ (Init.get_models env).2 → env.isFile = true →
      f ∉ env.untracked →
      (f ∈ env.newFiles →
        Event.chatCompletionCall (Init.completionRequest env.fileContent model true)
          ∈ (Init.gpt_commit env (some f) model false).1) ∧
      (f ∉ env.newFiles → f ∈ env.modifiedFiles →
        Event.chatCompletionCall (Init.completionRequest env.gitDiff model false)
          ∈ (Init.gpt_commit env (some f) model false).1)) ∧
    (∀ (env : Helper.Env) (f model : String) (no_edit dry : Bool),
      env.configOk = true → f ∈ env.tracked → env.diffWT ≠ "" →
      Event.chatCompletionCall (Helper.completionRequest env.diffWT model)
        ∈ (Helper.gpt_commit env f model false dry no_edit).1) ∧
    (∀ (env : Helper.Env) (f model : String) (no_edit dry : Bool),
      env.configOk = true → f ∈ env.tracked → env.diffWT = "" → env.diffHEAD ≠ "" →
      Event.chatCompletionCall (Helper.completionRequest env.diffHEAD model)
        ∈ (Helper.gpt_commit env f model false dry no_edit).1) := by
  refine ⟨?_, ?_, ?_⟩
  · intro env f model hs hm hf hu
    constructor
    · intro hn
      rw [Init.run_classified env f model hs hm hf hu]
      simp only [hn, if_true]
      unfold Init.afterDiff
      cases hc : env.choices.head?.map pyStrip
      · simp
      · simp only []
        cases h : env.editorChanged <;> simp
    · intro hn hmod
      rw [Init.run_classified env f model hs hm hf hu]
      simp only [hn, hmod, if_false, if_true]
      unfold Init.afterDiff
      cases hc : env.choices.head?.map pyStrip
      · simp [hn]
      · simp only []
        cases h : env.editorChanged <;> simp [hn]
  · intro env f model no_edit dry hc ht hwt
    have hd : Helper.get_diff env f = Except.ok env.diffWT := by
      unfold Helper.get_diff
      simp [ht, hwt]
    unfold Helper.gpt_commit
    simp only [hc, if_true, Bool.false_eq_true, if_false]
    obtain ⟨rest, hr⟩ := Helper.run_starts_gen env f model (!no_edit) dry env.diffWT hd hwt
    rw [hr]
    exact List.mem_append_left _ (Helper.gen_head env env.diffWT model)
  · intro env f model no_edit dry hc ht hwt hhd
    have hd : Helper.get_diff env f = Except.ok env.diffHEAD := by
      unfold Helper.get_diff
      simp [ht, hwt]
    unfold Helper.gpt_commit
    simp only [hc, if_true, Bool.false_eq_true, if_false]
    obtain ⟨rest, hr⟩ := Helper.run_starts_gen env f model (!no_edit) dry env.diffHEAD hd hhd
    rw [hr]
    exact List.mem_append_left _ (Helper.gen_head env env.diffHEAD model)

set_option maxRecDepth 400000 in
/-- C1 counterexample: on a repository state where foo.py is newly added
and fully staged (tracked in the index, empty working-tree diff), the
helper workflow passes the textual patch against HEAD to the generator,
which differs from the file's entire current content. -/
theorem C1_staged_new_file_gets_patch :
    ("foo.py") ∈ envNewStaged.tracked ∧ envNewStaged.diffWT = "" ∧
    ((Helper.gpt_commit envNewStaged ("foo.py") ("openai/gpt-4.1") false false false).1.filter
        Event.isCompletionCall) =
      [Event.chatCompletionCall
        (Helper.completionRequest envNewStaged.diffHEAD ("openai/gpt-4.1"))] ∧
    envNewStaged.diffHEAD ≠ envNewStaged.fileContent ∧
    Helper.helperPrompt envNewStaged.diffHEAD ≠
      Helper.helperPrompt envNewStaged.fileContent := by
  decide

set_option maxRecDepth 400000 in
/-- C1 witness: the amended theorem applied to a module-CLI state with a
newly added file and to the staged-new-file helper state. -/
theorem C1_diff_text_witness :
    Event.chatCompletionCall (Init.completionRequest envInitNew.fileContent
        ("openai/gpt-4.1") true)
      ∈ (Init.gpt_commit envInitNew (some ("foo.py")) ("openai/gpt-4.1") false).1 ∧
    Event.chatCompletionCall (Helper.completionRequest envNewStaged.diffHEAD
        ("openai/gpt-4.1"))
      ∈ (Helper.gpt_commit envNewStaged ("foo.py") ("openai/gpt-4.1") false false false).1 :=
  ⟨(C1_diff_text_by_variant.1 envInitNew ("foo.py") ("openai/gpt-4.1")
      (by decide) (by decide) (by decide) (by decide)).1 (by decide),
   C1_diff_text_by_variant.2.2 envNewStaged ("foo.py") ("openai/gpt-4.1") false false
      (by decide) (by decide) (by decide) (by decide)⟩

/-- C2 (amended): in the module CLI, whenever the --model value is not in
the sequence the model lister returned, the run finishes without any
chat-completion API call; the GitCommitHelper CLI performs no such
validation (see the counterexample). -/
theorem C2_invalid_model_no_completion (env : Init.Env) (fn : Option String)
    (model : String) (lm : Bool) (hm : model ∉ (Init.get_models env).2) :
    noCompletionCalls (Init.gpt_commit env fn model lm).1 = true := by
  unfold noCompletionCalls
  exact all_not_of_forall fun e he =>
    (benignEvent_spec (Init.invalid_model_events env fn model lm hm e he)).1

set_option maxRecDepth 400000 in
/-- C2 counterexample: the helper-class CLI issues a chat-completion call
with a model name that the model lister would not return. -/
theorem C2_helper_completion_with_unlisted_model :
    ("bogus-model") ∉ (Helper.get_models envBadModel).2 ∧
    ((Helper.gpt_commit envBadModel ("foo.py") ("bogus-model") false false false).1.any
        Event.isCompletionCall) = true := by
  decide

/-- C2 witness: the module CLI run with an unavailable model name makes no
completion call. -/
theorem C2_invalid_model_witness :
    noCompletionCalls
      (Init.gpt_commit baseIEnv (some ("foo.py")) ("no-such-model") false).1 = true :=
  C2_invalid_model_no_completion baseIEnv (some ("foo.py")) ("no-such-model") false
    (by decide)

theorem noCommits_of_benign {evs : List Event}
    (h : ∀ e ∈ evs, benignEvent e = true) : noCommits evs = true :=
  all_not_of_forall fun e he => (benignEvent_spec (h e he)).2.2.2.1

theorem noRepoWrites_of_benign {evs : List Event}
    (h : ∀ e ∈ evs, benignEvent e = true) : noRepoWrites evs = true :=
  all_not_of_forall fun e he => (benignEvent_spec (h e he)).2.1

theorem noCommits_append {a b : List Event} (ha : noCommits a = true)
    (hb : noCommits b = true) : noCommits (a ++ b) = true := by
  simp only [noCommits, List.all_append] at *
  simp [ha, hb]

theorem noRepoWrites_append {a b : List Event} (ha : noRepoWrites a = true)
    (hb : noRepoWrites b = true) : noRepoWrites (a ++ b) = true := by
  simp only [noRepoWrites, List.all_append] at *
  simp [ha, hb]

/-- C3 (amended): in the module CLI, when the editor leaves the message
file's modification time unchanged, no commit is created and an
informational message is printed; the commit_msg.txt file is removed
before exit on both the unchanged and the changed path, and the process
exits 0.  (The GitCommitHelper workflow, by contrast, never removes its
temporary file and commits an unchanged non-empty message: see the
counterexample.) -/
theorem C3_unchanged_edit_no_commit (env : Init.Env) (f model c : String)
    (hs : env.secretsOk = true) (hm : model ∈ (Init.get_models env).2)
    (hf : env.isFile = true) (hu : f ∉ env.untracked)
    (hcl : f ∈ env.newFiles ∨ f ∈ env.modifiedFiles)
    (hc : env.choices.head? = some c) :
    Event.msgFileRemove ∈ (Init.gpt_commit env (some f) model false).1 ∧
    (env.editorChanged = false →
      noCommits (Init.gpt_commit env (some f) model false).1 = true ∧
      Event.printMsg ("No changes made to the commit message. Exiting.")
        ∈ (Init.gpt_commit env (some f) model false).1) ∧
    (Init.gpt_commit env (some f) model false).2 = ExitKind.normal 0 := by
  have hpre := Init.preEvents_benign env
  have key : ∀ (d : String) (flag : Bool),
      Event.msgFileRemove ∈
        (Init.afterDiff env f model d flag ((Init.get_models env).1 ++
          (if env.bare then [Event.printMsg ("This is not a git repository")] else []))).1 ∧
      (env.editorChanged = false →
        noCommits (Init.afterDiff env f model d flag ((Init.get_models env).1 ++
          (if env.bare then [Event.printMsg ("This is not a git repository")] else []))).1
            = true ∧
        Event.printMsg ("No changes made to the commit message. Exiting.") ∈
          (Init.afterDiff env f model d flag ((Init.get_models env).1 ++
            (if env.bare then [Event.printMsg ("This is not a git repository")] else []))).1) ∧
      (Init.afterDiff env f model d flag ((Init.get_models env).1 ++
        (if env.bare then [Event.printMsg ("This is not a git repository")] else []))).2
          = ExitKind.normal 0 := by
    intro d flag
    rw [Init.afterDiff_eq env f model d flag _ c hc]
    by_cases hch : env.editorChanged = true
    · simp only [hch, if_true]
      refine ⟨by simp, ?_, by simp⟩
      intro h
      exact absurd h (by simp [hch])
    · simp only [Bool.not_eq_true] at hch
      simp only [hch, Bool.false_eq_true, if_false]
      refine ⟨by simp, fun _ => ⟨?_, by simp⟩, by simp⟩
      exact noCommits_append (noCommits_of_benign hpre) rfl
  rw [Init.run_classified env f model hs hm hf hu]
  by_cases hn : f ∈ env.newFiles
  · simp only [hn, if_true]
    exact key env.fileContent true
  · rcases hcl with hcl | hmod
    · exact absurd hcl hn
    · simp only [hn, hmod, if_false, if_true]
      exact key env.gitDiff false

set_option maxRecDepth 400000 in
/-- C3 counterexample: in the helper workflow, an edit that leaves the
temporary file identical to the generated message still produces a
commit, and the temporary file is never removed. -/
theorem C3_helper_commits_unchanged_edit :
    envUnchangedEdit.choices = [("Fix the build")] ∧
    envUnchangedEdit.editedContent = ("Fix the build") ∧
    Event.commitIndex ("Fix the build") ∈
      (Helper.gpt_commit envUnchangedEdit ("foo.py") ("openai/gpt-4.1")
        false false false).1 ∧
    Event.msgFileRemove ∉
      (Helper.gpt_commit envUnchangedEdit ("foo.py") ("openai/gpt-4.1")
        false false false).1 := by
  decide

set_option maxRecDepth 400000 in
/-- C3 witness: the amended theorem applied to a module-CLI state where
the editor left the file untouched. -/
theorem C3_unchanged_edit_witness :
    Event.msgFileRemove ∈
      (Init.gpt_commit envInitCancel (some ("foo.py")) ("openai/gpt-4.1") false).1 ∧
    noCommits
      (Init.gpt_commit envInitCancel (some ("foo.py")) ("openai/gpt-4.1") false).1 = true :=
  ⟨(C3_unchanged_edit_no_commit envInitCancel ("foo.py") ("openai/gpt-4.1")
      ("Update foo.py") (by decide) (by decide) (by decide) (by decide)
      (Or.inr (by decide)) (by decide)).1,
   ((C3_unchanged_edit_no_commit envInitCancel ("foo.py") ("openai/gpt-4.1")
      ("Update foo.py") (by decide) (by decide) (by decide) (by decide)
      (Or.inr (by decide)) (by decide)).2.1 (by decide)).1⟩

/-- C4 (amended): in the GitCommitHelper workflow, a message that is empty
after trimming once the edit step finishes aborts the run with a
diagnostic, before any staging or committing, exiting 0.  (The module CLI
performs no such check and commits the empty message: see the
counterexample.) -/
theorem C4_empty_edit_aborts (env : Helper.Env) (f model d c : String)
    (hcf : env.configOk = true)
    (hd : Helper.get_diff env f = Except.ok d) (hne : d ≠ "")
    (hapi : env.apiError = false) (hch : env.choices.head? = some c)
    (hcs : pyStrip c ≠ "") (hemp : pyStrip env.editedContent = "") :
    noRepoWrites (Helper.gpt_commit env f model false false false).1 = true ∧
    Event.printMsg ("Commit message empty after editing. Aborting.")
      ∈ (Helper.gpt_commit env f model false false false).1 ∧
    (Helper.gpt_commit env f model false false false).2 = ExitKind.normal 0 := by
  unfold Helper.gpt_commit
  simp only [hcf, if_true, Bool.false_eq_true, if_false]
  rw [Helper.cfw_eq env f model (!false) false d c hd hne hapi hch hcs]
  simp only [Bool.not_false, if_true, Bool.false_eq_true, if_false, hemp, ite_true]
  refine ⟨by rfl, by simp, by trivial⟩

set_option maxRecDepth 400000 in
/-- C4 counterexample: in the module CLI, an edit that rewrites the
message file (modification time changes) but leaves only whitespace still
creates a commit, with an empty message and no diagnostic. -/
theorem C4_init_commits_empty_message :
    pyStrip envEmptyEdit.editedContent = "" ∧ envEmptyEdit.editorChanged = true ∧
    Event.commitIndex ("") ∈
      (Init.gpt_commit envEmptyEdit (some ("foo.py")) ("openai/gpt-4.1") false).1 := by
  decide

set_option maxRecDepth 400000 in
/-- C4 witness: the amended theorem applied to the helper state whose
editor output is whitespace only. -/
theorem C4_empty_edit_witness :
    noRepoWrites
      (Helper.gpt_commit envHelperEmptyEdit ("foo.py") ("openai/gpt-4.1")
        false false false).1 = true ∧
    Event.printMsg ("Commit message empty after editing. Aborting.")
      ∈ (Helper.gpt_commit envHelperEmptyEdit ("foo.py") ("openai/gpt-4.1")
        false false false).1 :=
  ⟨(C4_empty_edit_aborts envHelperEmptyEdit ("foo.py") ("openai/gpt-4.1")
      envHelperEmptyEdit.diffWT ("Update foo.py") (by decide) (by decide) (by decide)
      (by decide) (by decide) (by decide) (by decide)).1,
   (C4_empty_edit_aborts envHelperEmptyEdit ("foo.py") ("openai/gpt-4.1")
      envHelperEmptyEdit.diffWT ("Update foo.py") (by decide) (by decide) (by decide)
      (by decide) (by decide) (by decide) (by decide)).2.1⟩

theorem noCompletionCalls_of_benign {evs : List Event}
    (h : ∀ e ∈ evs, benignEvent e = true) : noCompletionCalls evs = true :=
  all_not_of_forall fun e he => (benignEvent_spec (h e he)).1

theorem benign_with_print {evs : List Event} (s : String)
    (h : ∀ e ∈ evs, benignEvent e = true) :
    ∀ e ∈ evs ++ [Event.printMsg s], benignEvent e = true := by
  intro e he
  rcases List.mem_append.mp he with h1 | h1
  · exact h e h1
  · simp only [List.mem_singleton] at h1
    subst h1
    rfl

/-- C5: on a target file with no pending changes (classified as neither
newly added nor modified in the module CLI; both diffs empty in the
helper), each run terminates normally with exit code 0, prints an
informational message and performs no chat-completion call, no staging
and no commit. -/
theorem C5_unchanged_no_api_no_write :
    (∀ (env : Init.Env) (f model : String),
      env.secretsOk = true → model ∈ (Init.get_models env).2 → env.isFile = true →
      f ∉ env.untracked → f ∉ env.newFiles → f ∉ env.modifiedFiles →
      noCompletionCalls (Init.gpt_commit env (some f) model false).1 = true ∧
      noRepoWrites (Init.gpt_commit env (some f) model false).1 = true ∧
      Event.printMsg (f ++ " has not been modified.")
        ∈ (Init.gpt_commit env (some f) model false).1 ∧
      (Init.gpt_commit env (some f) model false).2 = ExitKind.normal 0) ∧
    (∀ (env : Helper.Env) (f model : String) (dry no_edit : Bool),
      env.configOk = true → f ∈ env.tracked → env.diffWT = "" → env.diffHEAD = "" →
      noCompletionCalls (Helper.gpt_commit env f model false dry no_edit).1 = true ∧
      noRepoWrites (Helper.gpt_commit env f model false dry no_edit).1 = true ∧
      Event.printMsg ("No changes detected for '" ++ f ++ "'.")
        ∈ (Helper.gpt_commit env f model false dry no_edit).1 ∧
      (Helper.gpt_commit env f model false dry no_edit).2 = ExitKind.normal 0) := by
  constructor
  · intro env f model hs hm hf hu hn hmod
    rw [Init.run_classified env f model hs hm hf hu]
    simp only [hn, hmod, if_false]
    have hb := benign_with_print (f ++ " has not been modified.")
      (Init.preEvents_benign env)
    exact ⟨noCompletionCalls_of_benign hb, noRepoWrites_of_benign hb, by simp, by trivial⟩
  · intro env f model dry no_edit hc ht hwt hhd
    have hd : Helper.get_diff env f = Except.ok ("") := by
      unfold Helper.get_diff
      simp [ht, hwt, hhd]
    unfold Helper.gpt_commit Helper.commit_file_with_ai
    simp only [hc, if_true, Bool.false_eq_true, if_false]
    rw [hd]
    exact ⟨rfl, rfl, by simp, rfl⟩

set_option maxRecDepth 400000 in
/-- C5 witness: the theorem applied to the baseline states, where foo.py
carries no pending change. -/
theorem C5_unchanged_witness :
    noCompletionCalls
      (Init.gpt_commit baseIEnv (some ("foo.py")) ("openai/gpt-4.1") false).1 = true ∧
    noRepoWrites
      (Helper.gpt_commit baseHEnv ("foo.py") ("openai/gpt-4.1") false false false).1 = true :=
  ⟨(C5_unchanged_no_api_no_write.1 baseIEnv ("foo.py") ("openai/gpt-4.1")
      (by decide) (by decide) (by decide) (by decide) (by decide) (by decide)).1,
   (C5_unchanged_no_api_no_write.2 baseHEnv ("foo.py") ("openai/gpt-4.1") false false
      (by decide) (by decide) (by decide) (by decide)).2.1⟩

/-- C6 (amended): the module CLI reports an untracked target file with a
"not tracked" message and exits 0 with no completion call and no repo
write; in GitCommitHelper, get_diff raises FileNotFoundError for an
untracked file, and since no caller catches it the helper CLI terminates
with an uncaught exception instead of exiting cleanly. -/
theorem C6_untracked_report :
    (∀ (env : Init.Env) (f model : String),
      env.secretsOk = true → model ∈ (Init.get_models env).2 → env.isFile = true →
      f ∈ env.untracked →
      Event.printMsg ("file '" ++ f ++ "' is not tracked by git.")
        ∈ (Init.gpt_commit env (some f) model false).1 ∧
      noCompletionCalls (Init.gpt_commit env (some f) model false).1 = true ∧
      noRepoWrites (Init.gpt_commit env (some f) model false).1 = true ∧
      (Init.gpt_commit env (some f) model false).2 = ExitKind.normal 0) ∧
    (∀ (env : Helper.Env) (f model : String) (dry no_edit : Bool),
      env.configOk = true → f ∉ env.tracked →
      (Helper.gpt_commit env f model false dry no_edit).2 =
        ExitKind.uncaught ("FileNotFoundError: " ++
          ("'" ++ f ++ "' is not tracked by git."))) := by
  constructor
  · intro env f model hs hm hf hu
    unfold Init.gpt_commit
    simp only [hs, if_true, Bool.false_eq_true, if_false, hm, ite_true, hf, hu]
    have hb := benign_with_print ("file '" ++ f ++ "' is not tracked by git.")
      (Init.preEvents_benign env)
    exact ⟨by simp, noCompletionCalls_of_benign hb, noRepoWrites_of_benign hb, by trivial⟩
  · intro env f model dry no_edit hc ht
    have hd : Helper.get_diff env f =
        Except.error ("'" ++ f ++ "' is not tracked by git.") := by
      unfold Helper.get_diff
      rw [if_neg ht]
    unfold Helper.gpt_commit Helper.commit_file_with_ai
    simp only [hc, if_true, Bool.false_eq_true, if_false]
    rw [hd]

set_option maxRecDepth 400000 in
/-- C6 counterexample: for an untracked target, the helper-class CLI ends
with an uncaught FileNotFoundError (process exit code 1), contradicting
the clean-exit part of the claim. -/
theorem C6_helper_uncaught_exception :
    ("bar.py") ∉ baseHEnv.tracked ∧
    (Helper.gpt_commit baseHEnv ("bar.py") ("openai/gpt-4.1") false false false).2 =
      ExitKind.uncaught ("FileNotFoundError: 'bar.py' is not tracked by git.") ∧
    exitCodeOf
      (Helper.gpt_commit baseHEnv ("bar.py") ("openai/gpt-4.1") false false false).2 ≠ 0 := by
  decide

set_option maxRecDepth 400000 in
/-- C6 witness: the amended theorem applied to an untracked file in each
variant. -/
theorem C6_untracked_witness :
    Event.printMsg ("file 'bar.py' is not tracked by git.")
      ∈ (Init.gpt_commit envInitUntracked (some ("bar.py")) ("openai/gpt-4.1") false).1 ∧
    (Helper.gpt_commit baseHEnv ("bar.py") ("openai/gpt-4.1") false false false).2 =
      ExitKind.uncaught ("FileNotFoundError: " ++
        ("'" ++ "bar.py" ++ "' is not tracked by git.")) :=
  ⟨(C6_untracked_report.1 envInitUntracked ("bar.py") ("openai/gpt-4.1")
      (by decide) (by decide) (by decide) (by decide)).1,
   C6_untracked_report.2 baseHEnv ("bar.py") ("openai/gpt-4.1") false false
      (by decide) (by decide)⟩

set_option maxRecDepth 1000 in
/-- C7 (amended): in both variants the exit code is 0 on success (a
commit is created) and on benign early exit (no changes detected;
editor-cancelled edit in the module CLI), and non-zero on configuration
failure.  Staging/commit failures break the claim: the module CLI
catches every exception in stage_and_commit, reports it, and still exits
0; GitCommitHelper.stage_and_commit catches only OSError and ValueError
(reported, exit 0), while any other exception, such as the
GitCommandError of repo.git.add, propagates uncaught and kills the
process with exit code 1. -/
theorem C7_exit_codes :
    (∀ (env : Init.Env) (f model c : String),
      env.secretsOk = true → model ∈ (Init.get_models env).2 → env.isFile = true →
      f ∉ env.untracked → (f ∈ env.newFiles ∨ f ∈ env.modifiedFiles) →
      env.choices.head? = some c →
      (Init.gpt_commit env (some f) model false).2 = ExitKind.normal 0 ∧
      (env.editorChanged = true → env.commitFails = false →
        Event.commitIndex (pyStrip env.editedContent)
          ∈ (Init.gpt_commit env (some f) model false).1) ∧
      (env.editorChanged = true → env.commitFails = true →
        Event.printMsg ("Error during staging or committing: " ++ env.commitErr)
          ∈ (Init.gpt_commit env (some f) model false).1)) ∧
    (∀ (env : Init.Env) (f model : String),
      env.secretsOk = true → model ∈ (Init.get_models env).2 → env.isFile = true →
      f ∉ env.untracked → f ∉ env.newFiles → f ∉ env.modifiedFiles →
      (Init.gpt_commit env (some f) model false).2 = ExitKind.normal 0) ∧
    (∀ (env : Init.Env) (fn : Option String) (model : String) (lm : Bool),
      env.secretsOk = false →
      (Init.gpt_commit env fn model lm).2 = ExitKind.normal 1) ∧
    (∀ (env : Helper.Env) (f model : String) (lm dry ne : Bool),
      env.configOk = false →
      exitCodeOf (Helper.gpt_commit env f model lm dry ne).2 = 1) ∧
    (∀ (env : Helper.Env) (f model : String) (dry ne : Bool),
      env.configOk = true → f ∈ env.tracked → env.diffWT = "" → env.diffHEAD = "" →
      (Helper.gpt_commit env f model false dry ne).2 = ExitKind.normal 0) ∧
    (∀ (env : Helper.Env) (f model d c : String),
      env.configOk = true → Helper.get_diff env f = Except.ok d → d ≠ "" →
      env.apiError = false → env.choices.head? = some c → pyStrip c ≠ "" →
      (env.commitFailure = Helper.CommitFailure.ok →
        Event.commitIndex (pyStrip c)
          ∈ (Helper.gpt_commit env f model false false true).1 ∧
        (Helper.gpt_commit env f model false false true).2 = ExitKind.normal 0) ∧
      (∀ msg, env.commitFailure = Helper.CommitFailure.caught msg →
        Event.printMsg ("Error during commit: " ++ msg)
          ∈ (Helper.gpt_commit env f model false false true).1 ∧
        (Helper.gpt_commit env f model false false true).2 = ExitKind.normal 0) ∧
      (∀ exn, env.commitFailure = Helper.CommitFailure.uncaught exn →
        (Helper.gpt_commit env f model false false true).2 =
          ExitKind.uncaught exn)) := by
  refine ⟨?_, ?_, ?_, ?_, ?_, ?_⟩
  · intro env f model c hs hm hf hu hcl hc
    have key : ∀ (d : String) (flag : Bool),
        (Init.afterDiff env f model d flag ((Init.get_models env).1 ++
          (if env.bare then [Event.printMsg ("This is not a git repository")] else []))).2
            = ExitKind.normal 0 ∧
        (env.editorChanged = true → env.commitFails = false →
          Event.commitIndex (pyStrip env.editedContent) ∈
            (Init.afterDiff env f model d flag ((Init.get_models env).1 ++
              (if env.bare then [Event.printMsg ("This is not a git repository")]
               else []))).1) ∧
        (env.editorChanged = true → env.commitFails = true →
          Event.printMsg ("Error during staging or committing: " ++ env.commitErr) ∈
            (Init.afterDiff env f model d flag ((Init.get_models env).1 ++
              (if env.bare then [Event.printMsg ("This is not a git repository")]
               else []))).1) := by
      intro d flag
      rw [Init.afterDiff_eq env f model d flag _ c hc]
      by_cases hch : env.editorChanged = true
      · simp only [hch, if_true]
        unfold Init.stage_and_commit
        refine ⟨by trivial, fun _ hcf => ?_, fun _ hcf => ?_⟩
        · simp [hcf]
        · simp [hcf]
      · simp only [Bool.not_eq_true] at hch
        simp only [hch, Bool.false_eq_true, if_false]
        refine ⟨by trivial, fun h _ => ?_, fun h _ => ?_⟩
        · exact absurd h (by simp [hch])
        · exact absurd h (by simp [hch])
    rw [Init.run_classified env f model hs hm hf hu]
    by_cases hn : f ∈ env.newFiles
    · simp only [hn, if_true]
      exact key env.fileContent true
    · rcases hcl with hcl | hmod
      · exact absurd hcl hn
      · simp only [hn, hmod, if_false, if_true]
        exact key env.gitDiff false
  · intro env f model hs hm hf hu hn hmod
    rw [Init.run_classified env f model hs hm hf hu]
    simp only [hn, hmod, if_false]
  · intro env fn model lm hs
    unfold Init.gpt_commit
    simp [hs]
  · intro env f model lm dry ne hc
    unfold Helper.gpt_commit
    simp [hc, exitCodeOf]
  · intro env f model dry ne hc ht hwt hhd
    have hd : Helper.get_diff env f = Except.ok ("") := by
      unfold Helper.get_diff
      simp [ht, hwt, hhd]
    unfold Helper.gpt_commit Helper.commit_file_with_ai
    simp only [hc, if_true, Bool.false_eq_true, if_false]
    rw [hd]
    rfl
  · intro env f model d c hc hd hne hapi hch hcs
    unfold Helper.gpt_commit
    simp only [hc, if_true, Bool.false_eq_true, if_false]
    rw [Helper.cfw_eq env f model (!true) false d c hd hne hapi hch hcs]
    simp only [Bool.not_true, Bool.false_eq_true, if_false]
    unfold Helper.stage_and_commit Helper.commitExit
    refine ⟨fun hok => ?_, fun msg hmsg => ?_, fun exn hexn => ?_⟩
    · rw [hok]
      exact ⟨by simp, rfl⟩
    · rw [hmsg]
      exact ⟨by simp, rfl⟩
    · rw [hexn]

set_option maxRecDepth 400000 in
/-- C7 counterexample: an OSError ("disk full") during staging or commit
is one of the caught classes; the diagnostic is printed and the process
exits 0, where the claim requires a non-zero exit on staging/commit
failure. -/
theorem C7_commit_failure_exits_zero :
    envCommitFail.commitFailure = Helper.CommitFailure.caught ("disk full") ∧
    Event.printMsg ("Error during commit: disk full") ∈
      (Helper.gpt_commit envCommitFail ("foo.py") ("openai/gpt-4.1") false false true).1 ∧
    (Helper.gpt_commit envCommitFail ("foo.py") ("openai/gpt-4.1") false false true).2 =
      ExitKind.normal 0 := by
  decide

set_option maxRecDepth 400000 in
/-- C7 witness: the amended theorem applied to a caught module-CLI commit
failure (exit 0), a missing secrets file (exit 1), missing helper
credentials (exit code 1), a caught helper commit failure (exit 0) and an
uncaught GitCommandError (exit via the exception). -/
theorem C7_exit_codes_witness :
    (Init.gpt_commit envInitCommitFail (some ("foo.py")) ("openai/gpt-4.1") false).2 =
      ExitKind.normal 0 ∧
    (Init.gpt_commit envInitNoSecrets (some ("foo.py")) ("openai/gpt-4.1") false).2 =
      ExitKind.normal 1 ∧
    exitCodeOf
      (Helper.gpt_commit envHelperNoCfg ("foo.py") ("openai/gpt-4.1")
        false false false).2 = 1 ∧
    (Helper.gpt_commit envCommitFail ("foo.py") ("openai/gpt-4.1") false false true).2 =
      ExitKind.normal 0 ∧
    (Helper.gpt_commit envCommitCrash ("foo.py") ("openai/gpt-4.1") false false true).2 =
      ExitKind.uncaught ("GitCommandError") :=
  ⟨(C7_exit_codes.1 envInitCommitFail ("foo.py") ("openai/gpt-4.1") ("Update foo.py")
      (by decide) (by decide) (by decide) (by decide) (Or.inr (by decide))
      (by decide)).1,
   C7_exit_codes.2.2.1 envInitNoSecrets (some ("foo.py")) ("openai/gpt-4.1") false
      (by decide),
   C7_exit_codes.2.2.2.1 envHelperNoCfg ("foo.py") ("openai/gpt-4.1") false false false
      (by decide),
   ((C7_exit_codes.2.2.2.2.2 envCommitFail ("foo.py") ("openai/gpt-4.1")
      envCommitFail.diffWT ("Update foo.py") (by decide) (by decide) (by decide)
      (by decide) (by decide) (by decide)).2.1 ("disk full") (by decide)).2,
   (C7_exit_codes.2.2.2.2.2 envCommitCrash ("foo.py") ("openai/gpt-4.1")
      envCommitCrash.diffWT ("Update foo.py") (by decide) (by decide) (by decide)
      (by decide) (by decide) (by decide)).2.2 ("GitCommandError") (by decide)⟩


theorem all_of_forall {p : Event → Bool} {evs : List Event}
    (h : ∀ e ∈ evs, p e = true) : evs.all p = true :=
  List.all_eq_true.mpr h

/-- C8: with --dry-run, a helper-CLI run performs no staging, no commit,
no temporary-file creation and no editor invocation in any environment;
when generation succeeds, the generated message is printed and the run
exits 0. -/
theorem C8_dry_run_no_repo_ops :
    (∀ (env : Helper.Env) (f model : String) (lm ne : Bool),
      ((Helper.gpt_commit env f model lm true ne).1.all preCommitEvent) = true) ∧
    (∀ (env : Helper.Env) (f model d c : String) (ne : Bool),
      env.configOk = true → Helper.get_diff env f = Except.ok d → d ≠ "" →
      env.apiError = false → env.choices.head? = some c → pyStrip c ≠ "" →
      Event.printMsg ("Generated commit message:\n" ++ pyStrip c)
        ∈ (Helper.gpt_commit env f model false true ne).1 ∧
      noRepoWrites (Helper.gpt_commit env f model false true ne).1 = true ∧
      (Helper.gpt_commit env f model false true ne).2 = ExitKind.normal 0) := by
  constructor
  · intro env f model lm ne
    unfold Helper.gpt_commit
    cases hcfg : env.configOk
    · simp
    · simp only [if_true]
      cases lm
      · simp only [Bool.false_eq_true, if_false]
        unfold Helper.commit_file_with_ai
        cases hd : Helper.get_diff env f with
        | error e => simp
        | ok d =>
          have hg1 := all_of_forall (Helper.gen_preCommit env d model)
          by_cases hne : d = ""
          · simp [hne, preCommitEvent]
          · simp only [hne, if_false]
            cases hg : (Helper.generate_commit_message env d model).2 with
            | none => simp [List.all_append, hg1, preCommitEvent]
            | some m =>
              by_cases hm : m = ""
              · simp [hm, List.all_append, hg1, preCommitEvent]
              · simp [hm, List.all_append, hg1, preCommitEvent]
      · refine all_of_forall fun e he => ?_
        simp only [ite_true, List.mem_append, List.mem_map] at he
        rcases he with he | ⟨m, _, rfl⟩
        · exact benign_preCommit (helper_get_models_benign env e he)
        · rfl
  · intro env f model d c ne hc hd hne hapi hch hcs
    unfold Helper.gpt_commit
    simp only [hc, if_true, Bool.false_eq_true, if_false]
    rw [Helper.cfw_eq env f model (!ne) true d c hd hne hapi hch hcs]
    simp only [if_true]
    exact ⟨by simp, by rfl, by trivial⟩

set_option maxRecDepth 400000 in
/-- C8 witness: a dry run on a modified file prints the generated message
and touches nothing. -/
theorem C8_dry_run_witness :
    ((Helper.gpt_commit envHelperMod ("foo.py") ("openai/gpt-4.1")
        false true false).1.all preCommitEvent) = true ∧
    Event.printMsg ("Generated commit message:\nUpdate foo.py")
      ∈ (Helper.gpt_commit envHelperMod ("foo.py") ("openai/gpt-4.1")
        false true false).1 :=
  ⟨C8_dry_run_no_repo_ops.1 envHelperMod ("foo.py") ("openai/gpt-4.1") false false,
   by
    have h := (C8_dry_run_no_repo_ops.2 envHelperMod ("foo.py") ("openai/gpt-4.1")
      envHelperMod.diffWT ("Update foo.py") false (by decide) (by decide) (by decide)
      (by decide) (by decide) (by decide)).1
    simpa using h⟩

theorem Init.afterDiff_completion_shape (env : Init.Env) (f model d : String)
    (flag : Bool) (evs : List Event) (req : ChatRequest)
    (hben : ∀ e ∈ evs, benignEvent e = true)
    (h : Event.chatCompletionCall req ∈ (Init.afterDiff env f model d flag evs).1) :
    req = Init.completionRequest d model flag := by
  have hb : Event.chatCompletionCall req ∉ evs := by
    intro he
    have h1 := (benignEvent_spec (hben _ he)).1
    simp [Event.isCompletionCall] at h1
  unfold Init.afterDiff at h
  cases hc : env.choices.head?.map pyStrip with
  | none =>
    rw [hc] at h
    simp [hb, Event.chatCompletionCall.injEq] at h
    exact h
  | some c =>
    rw [hc] at h
    by_cases hch : env.editorChanged = true
    · simp only [hch, if_true] at h
      unfold Init.stage_and_commit at h
      by_cases hcf : env.commitFails = true
      · simp only [hcf, if_true] at h
        simp [hb, Event.chatCompletionCall.injEq] at h
        exact h
      · simp only [hcf, Bool.false_eq_true, if_false] at h
        simp [hb, Event.chatCompletionCall.injEq] at h
        exact h
    · simp only [Bool.not_eq_true] at hch
      simp only [hch, Bool.false_eq_true, if_false] at h
      simp [hb, Event.chatCompletionCall.injEq] at h
      exact h

/-- C9: the module generator builds a single user-role message whose
content is one of two fixed templates with the diff text appended
verbatim, selected by new_file_flag, at temperature exactly 0; and every
completion request a module-CLI run ever issues is of exactly that form
(new-file template around the file content, or modified template around
the git patch). -/
theorem C9_generator_request_shape :
    (∀ (d model : String) (flag : Bool),
      (Init.completionRequest d model flag).messages =
        [{ role := "user",
           content := (if flag then
             "Please write a concise commit message that summarizes the newly added file with code:\n"
           else
             "Please write a brief commit message for the following diff:\n") ++ d }] ∧
      (Init.completionRequest d model flag).temperature = 0 ∧
      (Init.completionRequest d model flag).model = model) ∧
    (∀ (env : Init.Env) (fn : Option String) (model : String) (lm : Bool)
        (req : ChatRequest),
      Event.chatCompletionCall req ∈ (Init.gpt_commit env fn model lm).1 →
      req = Init.completionRequest env.fileContent model true ∨
      req = Init.completionRequest env.gitDiff model false) := by
  constructor
  · intro d model flag
    refine ⟨?_, rfl, rfl⟩
    cases flag <;> rfl
  · intro env fn model lm req h
    have hgm : Event.chatCompletionCall req ∉ (Init.get_models env).1 := by
      intro he
      have h1 := (benignEvent_spec (get_models_benign env _ he)).1
      simp [Event.isCompletionCall] at h1
    have hbare : Event.chatCompletionCall req ∉
        (if env.bare then [Event.printMsg ("This is not a git repository")] else []) := by
      cases hb : env.bare <;> simp
    unfold Init.gpt_commit at h
    cases hs : env.secretsOk
    · simp [hs] at h
    · cases lm
      · simp only [hs, if_true, Bool.false_eq_true, if_false] at h
        by_cases hm : model ∈ (Init.get_models env).2
        · simp only [hm, ite_true] at h
          cases fn with
          | none => simp [hgm] at h
          | some f =>
            cases hf : env.isFile
            · simp only [hf, Bool.false_eq_true, if_false] at h
              simp [hgm] at h
            · simp only [hf, if_true] at h
              by_cases hu : f ∈ env.untracked
              · simp only [hu, ite_true] at h
                simp [hgm, hbare] at h
              · simp only [hu, ite_false] at h
                by_cases hn : f ∈ env.newFiles
                · simp only [hn, ite_true] at h
                  exact Or.inl (Init.afterDiff_completion_shape env f model
                    env.fileContent true _ req (Init.preEvents_benign env) h)
                · simp only [hn, ite_false] at h
                  by_cases hmod : f ∈ env.modifiedFiles
                  · simp only [hmod, ite_true] at h
                    exact Or.inr (Init.afterDiff_completion_shape env f model
                      env.gitDiff false _ req (Init.preEvents_benign env) h)
                  · simp only [hmod, ite_false] at h
                    simp [hgm, hbare] at h
        · rw [if_neg hm] at h
          simp [hgm] at h
      · simp only [hs, ite_true] at h
        simp [hgm] at h

set_option maxRecDepth 400000 in
/-- C9 witness: the request shape theorem applied to concrete arguments
and to the completion call of a concrete new-file run. -/
theorem C9_generator_request_witness :
    (Init.completionRequest ("some diff") ("openai/gpt-4.1") false).temperature = 0 ∧
    (Init.completionRequest envInitNew.fileContent ("openai/gpt-4.1") true =
        Init.completionRequest envInitNew.fileContent ("openai/gpt-4.1") true ∨
      Init.completionRequest envInitNew.fileContent ("openai/gpt-4.1") true =
        Init.completionRequest envInitNew.gitDiff ("openai/gpt-4.1") false) :=
  ⟨(C9_generator_request_shape.1 ("some diff") ("openai/gpt-4.1") false).2.1,
   C9_generator_request_shape.2 envInitNew (some ("foo.py")) ("openai/gpt-4.1") false
     (Init.completionRequest envInitNew.fileContent ("openai/gpt-4.1") true)
     (by decide)⟩

/-- C10: GitCommitHelper.get_diff falls back to the diff against HEAD
exactly when the working-tree diff is empty, so a fully staged change
still yields a non-empty diff text, and the empty outcome occurs only
when both the working-tree diff and the HEAD diff are empty. -/
theorem C10_get_diff_fallback (env : Helper.Env) (f : String) :
    (f ∈ env.tracked → env.diffWT = "" →
      Helper.get_diff env f = Except.ok env.diffHEAD) ∧
    (f ∈ env.tracked → env.diffWT ≠ "" →
      Helper.get_diff env f = Except.ok env.diffWT) ∧
    (Helper.get_diff env f = Except.ok ("") →
      env.diffWT = "" ∧ env.diffHEAD = "") := by
  refine ⟨?_, ?_, ?_⟩
  · intro ht hwt
    unfold Helper.get_diff
    simp [ht, hwt]
  · intro ht hwt
    unfold Helper.get_diff
    simp [ht, hwt]
  · intro h
    unfold Helper.get_diff at h
    by_cases ht : f ∈ env.tracked
    · rw [if_pos ht] at h
      by_cases hwt : env.diffWT = ""
      · rw [if_pos hwt] at h
        injection h with h1
        exact ⟨hwt, h1⟩
      · rw [if_neg hwt] at h
        injection h with h1
        exact absurd h1 hwt
    · rw [if_neg ht] at h
      cases h

set_option maxRecDepth 400000 in
/-- C10 witness: on the staged-new-file state, get_diff returns the HEAD
patch. -/
theorem C10_get_diff_witness :
    Helper.get_diff envNewStaged ("foo.py") = Except.ok envNewStaged.diffHEAD :=
  (C10_get_diff_fallback envNewStaged ("foo.py")).1 (by decide) (by decide)

end GptCommit
